import Mathlib

/-
  Shallow embedding of `docs/conf.py` from the CFSpy_docs repository:
  a Sphinx / Jupyter-Book configuration module.  The module-level
  assignments become Lean definitions, the `setup` entry point becomes a
  state transformer on an application-handle structure, and evaluation of
  the whole module becomes a fold over its sequence of assignment
  statements.  Behaviour of the external documentation engine (asset
  registration, epilog substitution) is modelled from the spec where the
  engine's code is not part of this repository.
-/

namespace CFSpyDocs

/-- The Python value domain needed by the configuration artifact:
`None`, booleans, integers, strings, lists, dicts with string keys,
and function objects (referred to by name). -/
inductive PyVal where
  | none
  | bool (b : Bool)
  | int (n : Int)
  | str (s : String)
  | list (xs : List PyVal)
  | dict (xs : List (String × PyVal))
  | func (f : String)
  deriving Repr

/-- The `extensions` list assigned in `docs/conf.py`, lines 6-13, in
source order. -/
def extensions : List String :=
  ["sphinx.ext.autodoc",
   "sphinx.ext.napoleon",
   "sphinx.ext.mathjax",
   "sphinx.ext.viewcode",
   "sphinx.ext.graphviz",
   "sphinxcontrib.mermaid"]

/-- An application handle as seen by `setup`: the stylesheet assets and
script assets registered so far, plus all remaining engine state,
abstracted as a type parameter `σ` (the configuration touches nothing
else, which the frame theorems make explicit). -/
structure SphinxApp (σ : Type) where
  css_files : List String
  js_files : List String
  rest : σ

/-- Modelled from the spec: `app.add_css_file` is external engine code
(not part of this repository).  Per the spec it "registers one
stylesheet asset for inclusion in every rendered page's header, without
removing or overriding any asset already registered by the active
theme", so it appends the path to the registered stylesheet assets and
changes nothing else. -/
def add_css_file {σ : Type} (app : SphinxApp σ) (path : String) : SphinxApp σ :=
  { app with css_files := app.css_files ++ [path] }

/-- The value a Python function without a `return` statement returns:
`None`. -/
inductive PyReturn where
  | none
  deriving Repr, DecidableEq

/-- The `setup` entry point of `docs/conf.py`, lines 18-21: one
`add_css_file` call with the literal path, the `add_js_file` line is
commented out in the source, and there is no `return`. -/
def setup {σ : Type} (app : SphinxApp σ) : SphinxApp σ × PyReturn :=
  (add_css_file app "assets/css/custom.css", PyReturn.none)

/-- The `html_theme_options` dict assigned in `docs/conf.py`,
lines 28-32, in source order. -/
def html_theme_options : List (String × PyVal) :=
  [("use_download_button", PyVal.bool true),
   ("navigation_depth", PyVal.int 4)]

/-- The `nitpicky` flag assigned in `docs/conf.py`, line 38. -/
def nitpicky : Bool := false

/-- The `rst_epilog` triple-quoted string assigned in `docs/conf.py`,
lines 41-43: a newline, the substitution directive line, a newline. -/
def rst_epilog : String := "\n.. |project| replace:: CFSpy\n"

/-- The statement forms that actually occur in the module body of
`docs/conf.py`: only name bindings (an ordinary assignment, or a `def`,
which in Python binds the function name in the module namespace).  The
module contains no conditional, loop, `try`, `raise`, or any other
statement form. -/
inductive PyStmt where
  | assign (name : String) (v : PyVal)
  deriving Repr

/-- The name an assignment statement binds. -/
def PyStmt.name : PyStmt → String
  | PyStmt.assign n _ => n

/-- A module namespace: names bound to values, in binding order. -/
abbrev PyEnv : Type := List (String × PyVal)

/-- Binding a name in a namespace: rebinding an existing name replaces
its value in place, a fresh name is appended. -/
def bindVar (env : PyEnv) (n : String) (v : PyVal) : PyEnv :=
  if (List.lookup n env).isSome then
    List.map (fun p => if p.1 = n then (n, v) else p) env
  else env ++ [(n, v)]

/-- The module body of `docs/conf.py` as its sequence of top-level
statements, in source order: the `extensions` assignment, the `def
setup` binding, the `html_theme_options` assignment, the `nitpicky`
assignment, and the `rst_epilog` assignment. -/
def confStmts : List PyStmt :=
  [PyStmt.assign "extensions" (PyVal.list (List.map PyVal.str extensions)),
   PyStmt.assign "setup" (PyVal.func "setup"),
   PyStmt.assign "html_theme_options" (PyVal.dict html_theme_options),
   PyStmt.assign "nitpicky" (PyVal.bool nitpicky),
   PyStmt.assign "rst_epilog" (PyVal.str rst_epilog)]

/-- Evaluating a statement sequence: each assignment binds its name;
no statement form present in the module can fail, so the only
constructor that evaluation can produce on this body is `Except.ok`. -/
def evalStmts : List PyStmt → PyEnv → Except String PyEnv
  | [], env => Except.ok env
  | PyStmt.assign n v :: rest, env => evalStmts rest (bindVar env n v)

/-- Evaluating the whole configuration module from the empty namespace. -/
def evalModule : Except String PyEnv :=
  evalStmts confStmts []

/-- The `setup` entry point with the module namespace threaded through:
the body of `setup` in the source contains no `global` statement and no
assignment to any module-level name, so the module namespace passes
through unchanged and only the application handle is acted on. -/
def setupFull {σ : Type} (env : PyEnv) (app : SphinxApp σ) :
    PyEnv × SphinxApp σ × PyReturn :=
  (env, setup app)

/-- Splitting a character sequence into its lines at newline characters. -/
def splitLines : List Char → List (List Char)
  | [] => [[]]
  | c :: cs =>
    if c = '\n' then [] :: splitLines cs
    else
      match splitLines cs with
      | [] => [[c]]
      | l :: ls => (c :: l) :: ls

/-- Modelled from the spec: the external engine reads the epilog text as
a substitution table ("a mapping of symbolic name → replacement text").
A line of the form `.. |name| replace:: text` defines one substitution;
any other line defines none. -/
def parseSubstLine (l : List Char) : Option (List Char × List Char) :=
  if List.isPrefixOf (String.data ".. |") l then
    let rest := List.drop 4 l
    let name := List.takeWhile (fun c => c ≠ '|') rest
    let tail := List.dropWhile (fun c => c ≠ '|') rest
    if List.isPrefixOf (String.data "| replace:: ") tail then
      some (name, List.drop 12 tail)
    else Option.none
  else Option.none

/-- Modelled from the spec: the substitution table declared by an epilog
text, one entry per substitution-directive line. -/
def parseSubsts (s : String) : List (String × String) :=
  List.map (fun p => (String.mk p.1, String.mk p.2))
    (List.filterMap parseSubstLine (splitLines s.data))

/-- The substitution table of the configuration's `rst_epilog`. -/
def substTable : List (String × String) := parseSubsts rst_epilog

/-- A fragment of documentation source text: literal text, or a
reference to a symbolic substitution token. -/
inductive Token where
  | text (s : String)
  | ref (name : String)
  deriving Repr, DecidableEq

/-- Modelled from the spec: substitution is "applied via simple textual
substitution wherever the symbolic name is referenced in source
documents" — a referenced token with an entry in the table is replaced
by its replacement text, anything else is left as it is. -/
def applySubstTok (table : List (String × String)) : Token → Token
  | Token.text s => Token.text s
  | Token.ref n =>
    match List.lookup n table with
    | some r => Token.text r
    | Option.none => Token.ref n

/-- Applying the substitution table to a whole source document. -/
def applySubsts (table : List (String × String)) (doc : List Token) : List Token :=
  List.map (applySubstTok table) doc

/-- The substitution table of the epilog is the single entry mapping
the token name to the replacement text. -/
theorem lookup_substTable (n : String) :
    List.lookup n substTable = if n = "project" then some "CFSpy" else Option.none := by
  have h : substTable = [("project", "CFSpy")] := by decide
  rw [h]
  by_cases hn : n = "project"
  · simp [List.lookup, hn]
  · have hb : (n == "project") = false := beq_eq_false_iff_ne.mpr hn
    simp [List.lookup, hn, hb]

/-- Claim C1: the declared extension registry is an ordered sequence of
exactly six extension identifier strings — autodoc generation,
docstring-style parsing, math rendering, source-viewing links, graph
rendering, diagram rendering — in that order. -/
theorem extensions_exact :
    extensions.length = 6 ∧
    extensions = ["sphinx.ext.autodoc", "sphinx.ext.napoleon", "sphinx.ext.mathjax",
      "sphinx.ext.viewcode", "sphinx.ext.graphviz", "sphinxcontrib.mermaid"] :=
  ⟨rfl, rfl⟩

/-- Claim C2: for every application handle, `setup` registers exactly
one stylesheet asset (one `add_css_file` call, appending a single
entry), keeps every previously registered asset (the old stylesheet
list is a sublist of the new one and scripts are untouched), performs no
other side effect (all remaining engine state `rest` is unchanged), and
returns `None`. -/
theorem setup_effect {σ : Type} (app : SphinxApp σ) :
    (setup app).1.css_files = app.css_files ++ ["assets/css/custom.css"] ∧
    (setup app).1.js_files = app.js_files ∧
    (setup app).1.rest = app.rest ∧
    List.Sublist app.css_files (setup app).1.css_files ∧
    (setup app).2 = PyReturn.none :=
  ⟨rfl, rfl, rfl, List.sublist_append_left app.css_files ["assets/css/custom.css"], rfl⟩

/-- Claim C3: the theme option overlay declares exactly the two keys
`use_download_button`, bound to the boolean `True`, and
`navigation_depth`, bound to the positive integer 4, and no other. -/
theorem html_theme_options_exact :
    List.map Prod.fst html_theme_options = ["use_download_button", "navigation_depth"] ∧
    List.lookup "use_download_button" html_theme_options = some (PyVal.bool true) ∧
    List.lookup "navigation_depth" html_theme_options = some (PyVal.int 4) ∧
    (0 : Int) < 4 ∧
    html_theme_options.length = 2 :=
  ⟨rfl, rfl, rfl, by norm_num, rfl⟩

/-- Claim C4: the strictness flag `nitpicky` is declared as a boolean
and its declared value is `False`. -/
theorem nitpicky_false : nitpicky = false := rfl

/-- Claim C5: the epilog defines exactly one substitution rule, mapping
the token `|project|` to the literal string "CFSpy", and applying the
table to any source text replaces every reference to `|project|` with
exactly the text "CFSpy" and changes nothing else. -/
theorem rst_epilog_single_subst :
    substTable = [("project", "CFSpy")] ∧
    ∀ doc : List Token,
      applySubsts substTable doc =
        List.map
          (fun t => match t with
            | Token.ref n => if n = "project" then Token.text "CFSpy" else Token.ref n
            | Token.text s => Token.text s) doc := by
  constructor
  · decide
  · intro doc
    have hfun : applySubstTok substTable =
        fun t => match t with
          | Token.ref n => if n = "project" then Token.text "CFSpy" else Token.ref n
          | Token.text s => Token.text s := by
      funext t
      cases t with
      | text s => rfl
      | ref n =>
        show (match List.lookup n substTable with
          | some r => Token.text r
          | Option.none => Token.ref n) = _
        rw [lookup_substTable]
        by_cases hn : n = "project" <;> simp [hn]
    rw [applySubsts, hfun]

/-- Claim C6: evaluating the configuration module never raises an
error: its body is an unconditional sequence of assignments (the only
statement form present), every such sequence evaluates to `Except.ok`
from any environment, and evaluating this module from the empty
namespace succeeds, binding exactly the declared values with no
validation performed on them. -/
theorem conf_eval_total :
    (∀ (stmts : List PyStmt) (env : PyEnv), ∃ env2, evalStmts stmts env = Except.ok env2) ∧
    evalModule = Except.ok
      [("extensions", PyVal.list (List.map PyVal.str extensions)),
       ("setup", PyVal.func "setup"),
       ("html_theme_options", PyVal.dict html_theme_options),
       ("nitpicky", PyVal.bool nitpicky),
       ("rst_epilog", PyVal.str rst_epilog)] := by
  constructor
  · intro stmts
    induction stmts with
    | nil => exact fun env => ⟨env, rfl⟩
    | cons st rest ih =>
      intro env
      cases st with
      | assign n v => exact ih (bindVar env n v)
  · rfl

/-- Claim C7: every configuration entity is assigned exactly once
during evaluation (the bound names of the module body are pairwise
distinct, so no binding overwrites another) and never mutated
afterwards: the `setup` entry point returns the module namespace
unchanged for every namespace and every application handle. -/
theorem conf_assigned_once :
    (List.map PyStmt.name confStmts).Nodup ∧
    ∀ (σ : Type) (env : PyEnv) (app : SphinxApp σ), (setupFull env app).1 = env :=
  ⟨by decide, fun _ _ _ => rfl⟩

/-- Claim C8: the single asset `setup` registers is the stylesheet at
the relative path "assets/css/custom.css", and no script asset is
registered (the `add_js_file` call is commented out in the source), so
the script list is unchanged. -/
theorem setup_only_css {σ : Type} (app : SphinxApp σ) :
    (setup app).1.css_files = app.css_files ++ ["assets/css/custom.css"] ∧
    (setup app).1.js_files = app.js_files :=
  ⟨rfl, rfl⟩

/-- Claim C9: the declared extension list contains no duplicate
identifiers and no empty identifier: its six strings are pairwise
distinct and non-empty. -/
theorem extensions_nodup :
    extensions.Nodup ∧ "" ∉ extensions ∧ extensions.length = 6 := by
  decide

/-- Claim C10: evaluation of the configuration is deterministic — it
takes no input, so any two evaluations of the module body yield the same
result — and for any two application handles in the same asset-registry
state, `setup` registers the same single stylesheet path on each and
leaves the two registries in equal states, returning the same value. -/
theorem conf_deterministic {σ τ : Type} (app1 : SphinxApp σ) (app2 : SphinxApp τ)
    (hcss : app1.css_files = app2.css_files) (hjs : app1.js_files = app2.js_files) :
    evalStmts confStmts [] = evalModule ∧
    (setup app1).1.css_files = (setup app2).1.css_files ∧
    (setup app1).1.js_files = (setup app2).1.js_files ∧
    (setup app1).1.css_files = app1.css_files ++ ["assets/css/custom.css"] ∧
    (setup app1).2 = (setup app2).2 := by
  refine ⟨rfl, ?_, ?_, rfl, rfl⟩
  · show app1.css_files ++ ["assets/css/custom.css"] = app2.css_files ++ ["assets/css/custom.css"]
    rw [hcss]
  · show app1.js_files = app2.js_files
    exact hjs

/-- Witness for claim C10 at two concrete handles over distinct residual
state types with equal asset registries. -/
theorem conf_deterministic_witness :
    evalStmts confStmts [] = evalModule ∧
    (setup (SphinxApp.mk ["t.css"] ["t.js"] ())).1.css_files =
      (setup (SphinxApp.mk ["t.css"] ["t.js"] true)).1.css_files ∧
    (setup (SphinxApp.mk ["t.css"] ["t.js"] ())).1.js_files =
      (setup (SphinxApp.mk ["t.css"] ["t.js"] true)).1.js_files ∧
    (setup (SphinxApp.mk ["t.css"] ["t.js"] ())).1.css_files =
      ["t.css"] ++ ["assets/css/custom.css"] ∧
    (setup (SphinxApp.mk ["t.css"] ["t.js"] ())).2 =
      (setup (SphinxApp.mk ["t.css"] ["t.js"] true)).2 :=
  conf_deterministic (SphinxApp.mk ["t.css"] ["t.js"] ())
    (SphinxApp.mk ["t.css"] ["t.js"] true) rfl rfl

end CFSpyDocs
